import Mathlib

/-!
Verification of the AMDTP isochronous streaming engine of the
snd-firewire-improve driver set, shallowly embedded from
`sound/firewire/amdtp.c`, `sound/firewire/amdtp.h` and
`fireworks/fireworks_command.c`.  Machine integers are modelled as `Nat`
(the C code uses `unsigned int`; an explicit `% 2 ^ 32` is inserted where
32-bit wrap-around is reachable), fallible operations return `Option` /
`Except`, and the per-stream mutable state is passed explicitly as an
`AmdtpStream` record mirroring `struct amdtp_stream`.
-/

/-! ## Constants from amdtp.c / amdtp.h -/

def TICKS_PER_CYCLE : Nat := 3072
def CYCLES_PER_SECOND : Nat := 8000
def TICKS_PER_SECOND : Nat := TICKS_PER_CYCLE * CYCLES_PER_SECOND
def TRANSFER_DELAY_TICKS : Nat := 0x2e00
def ISO_DATA_LENGTH_SHIFT : Nat := 16

def CIP_EOH : Nat := 1 <<< 31
def CIP_EOH_MASK : Nat := 0x80000000
def CIP_FMT_AM : Nat := 0x10 <<< 24
def CIP_FMT_MASK : Nat := 0x3f000000
def CIP_SYT_MASK : Nat := 0x0000ffff
def CIP_SYT_NO_INFO : Nat := 0xffff
def CIP_FDF_MASK : Nat := 0x00ff0000
def CIP_FDF_SFC_SHIFT : Nat := 16

/-- AMDTP_FDF_AM824 is `0 << (CIP_FDF_SFC_SHIFT + 3)`. -/
def AMDTP_FDF_AM824 : Nat := 0 <<< (CIP_FDF_SFC_SHIFT + 3)
def AMDTP_FDF_NO_DATA : Nat := 0xff
def AMDTP_DBS_MASK : Nat := 0x00ff0000
def AMDTP_DBS_SHIFT : Nat := 16
def AMDTP_DBC_MASK : Nat := 0x000000ff
/-- DBC_THRESHOLD is `AMDTP_DBC_MASK / 2`, i.e. 127. -/
def DBC_THRESHOLD : Nat := AMDTP_DBC_MASK / 2

def INTERRUPT_INTERVAL : Nat := 16
def QUEUE_LENGTH : Nat := 48
def IN_PACKET_HEADER_SIZE : Nat := 4
def OUT_PACKET_HEADER_SIZE : Nat := 0

def AMDTP_MAX_CHANNELS_FOR_PCM : Nat := 64
def AMDTP_MAX_CHANNELS_FOR_MIDI : Nat := 1

/-- enum cip_flags (bit mask values). -/
def CIP_NONBLOCKING : Nat := 0x00
def CIP_BLOCKING : Nat := 0x01
def CIP_HI_DUALWIRE : Nat := 0x02
def CIP_SYNC_TO_DEVICE : Nat := 0x04

/-- enum cip_sfc values. -/
def CIP_SFC_32000 : Nat := 0
def CIP_SFC_44100 : Nat := 1
def CIP_SFC_48000 : Nat := 2
def CIP_SFC_88200 : Nat := 3
def CIP_SFC_96000 : Nat := 4
def CIP_SFC_176400 : Nat := 5
def CIP_SFC_192000 : Nat := 6
def CIP_SFC_COUNT : Nat := 7

/-! ## Data model -/

inductive AmdtpStreamDirection where
  | AMDTP_OUT_STREAM
  | AMDTP_IN_STREAM
deriving DecidableEq

/-- The sample transfer function pointer `s->transfer_samples`; it only ever
holds one of the six static functions of amdtp.c, so it is embedded as an
enumeration of those functions. -/
inductive TransferFn where
  | amdtp_write_s16
  | amdtp_write_s32
  | amdtp_write_s16_dualwire
  | amdtp_write_s32_dualwire
  | amdtp_read_s32
  | amdtp_read_s32_dualwire
deriving DecidableEq

/-- The two PCM sample formats the driver accepts. -/
inductive SndPcmFormat where
  | S16
  | S32
deriving DecidableEq

/-- The part of `struct snd_pcm_runtime` the stream core reads. -/
structure PcmRuntime where
  buffer_size : Nat
  period_size : Nat
deriving DecidableEq

/-- One MIDI substream: `tx` is the pending transmit queue read by
`snd_rawmidi_transmit`, `rx` accumulates the bytes delivered by
`snd_rawmidi_receive`. -/
structure MidiState where
  tx : List Nat
  rx : List Nat
deriving DecidableEq

/-- struct sort_table of amdtp.c. -/
structure SortEntry where
  id : Nat
  dbc : Nat
  payload_size : Nat
deriving DecidableEq

/-- List access with a default, standing in for C array indexing. -/
def lget (l : List (Option MidiState)) (i : Nat) : Option MidiState :=
  (l.getD i none)

/-- List update, standing in for C array assignment. -/
def lset (l : List α) (i : Nat) (a : α) : List α :=
  l.set i a

/-- struct amdtp_stream (the fields the embedded operations touch). -/
structure AmdtpStream where
  flags : Nat
  direction : AmdtpStreamDirection
  sfc : Nat
  dual_wire : Bool
  data_block_quadlets : Nat
  pcm_channels : Nat
  midi_ports : Nat
  transfer_samples : TransferFn
  pcm_positions : List Nat
  midi_position : Nat
  syt_interval : Nat
  transfer_delay : Nat
  source_node_id_field : Nat
  pcm : Option PcmRuntime
  packet_index : Int
  data_block_counter : Nat
  data_block_state : Nat
  last_syt_offset : Nat
  syt_offset_state : Nat
  pcm_buffer_pointer : Nat
  pcm_period_pointer : Nat
  pointer_flush : Bool
  midi : List (Option MidiState)
  blocks_for_midi : Nat
deriving DecidableEq

/-- const unsigned int amdtp_syt_intervals[CIP_SFC_COUNT]. -/
def amdtp_syt_intervals : List Nat := [8, 8, 8, 16, 16, 32, 32]

/-- const unsigned int amdtp_rate_table[]. -/
def amdtp_rate_table : List Nat := [32000, 44100, 48000, 88200, 96000, 176400, 192000]

/-- static inline bool cip_sfc_is_base_44100(enum cip_sfc sfc): `return sfc & 1;`. -/
def cip_sfc_is_base_44100 (sfc : Nat) : Bool :=
  sfc &&& 1 != 0

/-! ## amdtp_stream_set_parameters -/

/-- The sfc lookup loop of amdtp_stream_set_parameters.  (The C loop bound is
`sizeof(amdtp_rate_table)`, i.e. it keeps scanning past the table for rates
not in it; for any rate present in the table the behaviour is the plain
lookup below, and an absent rate takes the WARN-and-return path, `none`.) -/
def sfc_lookup (rate : Nat) : Option Nat :=
  (List.range CIP_SFC_COUNT).findIdx? (fun sfc => amdtp_rate_table.getD sfc 0 = rate)

/-- amdtp_stream_set_parameters.  `none` models the WARN-and-return paths. -/
def amdtp_stream_set_parameters (s : AmdtpStream) (rate pcm_channels midi_ports : Nat) :
    Option AmdtpStream :=
  let midi_channels := (midi_ports + 7) / 8
  if pcm_channels > AMDTP_MAX_CHANNELS_FOR_PCM ∨
      midi_channels > AMDTP_MAX_CHANNELS_FOR_MIDI then none
  else
    match sfc_lookup rate with
    | none => none
    | some sfc0 =>
      let dual_wire := (s.flags &&& CIP_HI_DUALWIRE != 0) && decide (sfc0 > CIP_SFC_96000)
      let sfc := if dual_wire then sfc0 - 2 else sfc0
      let rate1 := if dual_wire then rate / 2 else rate
      let s_pcm_channels := if dual_wire then pcm_channels * 2 else pcm_channels
      let syt_interval := amdtp_syt_intervals.getD sfc 0
      let transfer_delay :=
        TRANSFER_DELAY_TICKS - TICKS_PER_CYCLE +
          (if s.flags &&& CIP_BLOCKING != 0 then TICKS_PER_SECOND * syt_interval / rate1
           else 0)
      -- the position-map loop runs over the pcm_channels *parameter* (not the
      -- doubled field): for (i = 0; i < pcm_channels; i++) pcm_positions[i] = i
      some { s with
        dual_wire := dual_wire
        sfc := sfc
        pcm_channels := s_pcm_channels
        data_block_quadlets := s_pcm_channels + midi_channels
        midi_ports := midi_ports
        syt_interval := syt_interval
        transfer_delay := transfer_delay
        pcm_positions := List.range pcm_channels
        midi_position := s_pcm_channels }

/-- unsigned int amdtp_stream_get_max_payload(struct amdtp_stream *s). -/
def amdtp_stream_get_max_payload (s : AmdtpStream) : Nat :=
  8 + s.syt_interval * s.data_block_quadlets * 4

/-! ## amdtp_stream_set_pcm_format -/

/-- amdtp_stream_set_pcm_format.  In the C switch, the `default:` and
`SNDRV_PCM_FORMAT_S16` cases fall through into the `SNDRV_PCM_FORMAT_S32`
case whenever the S16 case does not `break` (i.e. for capture streams);
that fall-through is written out explicitly here. -/
def amdtp_stream_set_pcm_format (s : AmdtpStream) (format : SndPcmFormat) : AmdtpStream :=
  match format with
  | .S16 =>
    if s.direction = .AMDTP_OUT_STREAM then
      { s with transfer_samples :=
          if s.dual_wire then .amdtp_write_s16_dualwire else .amdtp_write_s16 }
    else -- WARN_ON(1), fall through to the S32 case
      if s.dual_wire then { s with transfer_samples := .amdtp_read_s32_dualwire }
      else { s with transfer_samples := .amdtp_read_s32 }
  | .S32 =>
    if s.direction = .AMDTP_OUT_STREAM then
      { s with transfer_samples :=
          if s.dual_wire then .amdtp_write_s32_dualwire else .amdtp_write_s32 }
    else
      if s.dual_wire then { s with transfer_samples := .amdtp_read_s32_dualwire }
      else { s with transfer_samples := .amdtp_read_s32 }

/-! ## Rate engine -/

/-- The non-blocking 44.1 kHz blocks-per-packet formula of
calculate_data_blocks: `5 + ((phase & 1) ^ (phase == 0 || phase >= 40))`. -/
def db44_pattern (phase : Nat) : Nat :=
  5 + ((phase &&& 1) ^^^ (if phase = 0 ∨ phase ≥ 40 then 1 else 0))

/-- static unsigned int calculate_data_blocks(struct amdtp_stream *s).
Returns the data block count and the stream with the updated
`data_block_state`. -/
def calculate_data_blocks (s : AmdtpStream) : Nat × AmdtpStream :=
  if s.flags &&& CIP_BLOCKING != 0 then
    (s.syt_interval, s)
  else if ¬ cip_sfc_is_base_44100 s.sfc then
    (s.data_block_state, s)
  else
    let phase := s.data_block_state
    let data_blocks :=
      if s.sfc = CIP_SFC_44100 then
        db44_pattern phase
      else
        11 * (s.sfc >>> 1) + (if phase = 0 then 1 else 0)
    let phase1 := if phase + 1 ≥ 80 >>> (s.sfc >>> 1) then 0 else phase + 1
    (data_blocks, { s with data_block_state := phase1 })

/-- The 44.1 kHz-base SYT offset correction of calculate_syt:
`(index && !(index & 3)) || phase == 146` as a 0/1 value, where
`index = phase % 13`. -/
def syt_corr (phase : Nat) : Nat :=
  let index := phase % 13
  if (index ≠ 0 ∧ index &&& 3 = 0) ∨ phase = 146 then 1 else 0

/-- static unsigned int calculate_syt(struct amdtp_stream *s, unsigned int cycle).
Returns the 16-bit SYT and the stream with updated `last_syt_offset` /
`syt_offset_state`. -/
def calculate_syt (s : AmdtpStream) (cycle : Nat) : Nat × AmdtpStream :=
  let r :=
    if s.last_syt_offset < TICKS_PER_CYCLE then
      if ¬ cip_sfc_is_base_44100 s.sfc then
        (s.last_syt_offset + s.syt_offset_state, s)
      else
        (s.last_syt_offset + 1386 + syt_corr s.syt_offset_state,
         { s with syt_offset_state :=
             if s.syt_offset_state + 1 ≥ 147 then 0 else s.syt_offset_state + 1 })
    else
      (s.last_syt_offset - TICKS_PER_CYCLE, s)
  let syt_offset := r.1
  let s2 := { r.2 with last_syt_offset := syt_offset }
  let syt :=
    if syt_offset < TICKS_PER_CYCLE then
      let syt_offset1 := syt_offset + s2.transfer_delay
      let w := ((cycle + syt_offset1 / TICKS_PER_CYCLE) <<< 12) % 2 ^ 32
      ((w + syt_offset1 % TICKS_PER_CYCLE) % 2 ^ 32) &&& CIP_SYT_MASK
    else
      CIP_SYT_NO_INFO
  (syt, s2)

/-! ## amdtp_stream_start (state initialisation) -/

/-- The per-SFC initial_state table of amdtp_stream_start:
(data_block, syt_offset) indexed by cip_sfc. -/
def initial_state : List (Nat × Nat) :=
  [(4, 3072), (0, 67), (6, 1024), (0, 67), (12, 1024), (0, 67), (24, 1024)]

/-- The stream-state initialisation performed by amdtp_stream_start (the
buffer / context / queueing work is carried out against the firewire core and
is external to this model). -/
def amdtp_stream_start_state (s : AmdtpStream) : AmdtpStream :=
  let ini := initial_state.getD s.sfc (0, 0)
  { s with
    data_block_state := ini.1
    syt_offset_state := ini.2
    last_syt_offset := TICKS_PER_CYCLE
    packet_index := 0
    data_block_counter := 0 }

/-- The sequence of data-block counts returned by successive calls to
calculate_data_blocks starting from stream state `s`. -/
def data_blocks_seq (s : AmdtpStream) : Nat → Nat
  | 0 => (calculate_data_blocks s).1
  | n + 1 => data_blocks_seq (calculate_data_blocks s).2 n

/-! ## MIDI multiplexing -/

/-- Loop body iteration of amdtp_fill_midi.  `rem` counts the remaining
frames, `f` is the current block index.  Returns the MPX-MIDI quadlets
written (one per data block, each `label << 24 | byte << 16`) together with
the updated MIDI substream array; `snd_rawmidi_transmit` consuming one byte
of the port's queue is modelled by popping `tx`. -/
def amdtp_fill_midi_aux (dbc blocks_for_midi : Nat) :
    List (Option MidiState) → Nat → Nat → List Nat × List (Option MidiState)
  | midi, 0, _ => ([], midi)
  | midi, rem + 1, f =>
    let port := (dbc + f) % 8
    let empty_q : Nat := 0x80 <<< 24
    let (q, midi1) :=
      if f ≥ blocks_for_midi then (empty_q, midi)
      else
        match lget midi port with
        | none => (empty_q, midi)
        | some ms =>
          match ms.tx with
          | [] => (empty_q, midi)
          | b :: rest =>
            ((0x81 <<< 24) ||| (b <<< 16), lset midi port (some { ms with tx := rest }))
    let (qs, midi2) := amdtp_fill_midi_aux dbc blocks_for_midi midi1 rem (f + 1)
    (q :: qs, midi2)

/-- static void amdtp_fill_midi(struct amdtp_stream *s, __be32 *buffer,
unsigned int frames). -/
def amdtp_fill_midi (s : AmdtpStream) (frames : Nat) : List Nat × AmdtpStream :=
  let r := amdtp_fill_midi_aux s.data_block_counter s.blocks_for_midi s.midi frames 0
  (r.1, { s with midi := r.2 })

/-- Loop body iteration of amdtp_pull_midi.  `off` is the quadlet offset of
the C `buffer` pointer into the packet body: the source advances it with
`buffer += s->data_block_quadlets` only after a successful delivery, because
that statement sits below the two `continue`s. -/
def amdtp_pull_midi_aux (dbq midi_position dbc : Nat) (body : List Nat) :
    List (Option MidiState) → Nat → Nat → Nat → List (Option MidiState)
  | midi, 0, _, _ => midi
  | midi, rem + 1, f, off =>
    let port := (dbc + f) % 8
    let q := body.getD (off + midi_position) 0
    let b0 := (q >>> 24) &&& 0xff
    let b1 := (q >>> 16) &&& 0xff
    let b2 := (q >>> 8) &&& 0xff
    let b3 := q &&& 0xff
    let len : Int := (b0 : Int) - 0x80
    if len < 1 ∨ 3 < len then
      amdtp_pull_midi_aux dbq midi_position dbc body midi rem (f + 1) off
    else
      match lget midi port with
      | none => amdtp_pull_midi_aux dbq midi_position dbc body midi rem (f + 1) off
      | some ms =>
        let bytes := if len = 1 then [b1] else if len = 2 then [b1, b2] else [b1, b2, b3]
        amdtp_pull_midi_aux dbq midi_position dbc body
          (lset midi port (some { ms with rx := ms.rx ++ bytes })) rem (f + 1) (off + dbq)

/-- static void amdtp_pull_midi(struct amdtp_stream *s, __be32 *buffer,
unsigned int frames); `body` is the packet payload after the CIP header. -/
def amdtp_pull_midi (s : AmdtpStream) (body : List Nat) (frames : Nat) : AmdtpStream :=
  { s with midi :=
      (amdtp_pull_midi_aux s.data_block_quadlets s.midi_position s.data_block_counter
        body s.midi frames 0 0) }

/-! ## PCM pointer bookkeeping -/

/-- static void update_pcm_pointers(struct amdtp_stream *s,
struct snd_pcm_substream *pcm, unsigned int frames).  The
`tasklet_hi_schedule(&s->period_tasklet)` on a period boundary is external;
the boundary itself is visible through `pointer_flush` turning false. -/
def update_pcm_pointers (s : AmdtpStream) (pcm : PcmRuntime) (frames : Nat) : AmdtpStream :=
  let frames1 := if s.dual_wire then frames * 2 else frames
  let ptr := s.pcm_buffer_pointer + frames1
  let ptr1 := if ptr ≥ pcm.buffer_size then ptr - pcm.buffer_size else ptr
  let ppp := s.pcm_period_pointer + frames1
  if ppp ≥ pcm.period_size then
    { s with pcm_buffer_pointer := ptr1, pcm_period_pointer := ppp - pcm.period_size,
             pointer_flush := false }
  else
    { s with pcm_buffer_pointer := ptr1, pcm_period_pointer := ppp }

/-! ## Transmit path -/

/-- The observable parts of one packet built by handle_out_packet: the two
CIP header words and the block count / payload length handed to
queue_out_packet. -/
structure OutPacket where
  header0 : Nat
  header1 : Nat
  data_blocks : Nat
  payload_length : Nat
deriving DecidableEq

/-- static void handle_out_packet(struct amdtp_stream *s, unsigned int syt).
Returns the built packet (`none` when `packet_index < 0` makes the function
bail out) and the updated stream.  The AM824 sample quadlets written by
`transfer_samples` / `amdtp_fill_pcm_silence{,_dualwire}` land between the
header and are not modelled; queueing succeeds (a queueing failure is an
external fw_iso_context_queue error). -/
def handle_out_packet (s : AmdtpStream) (syt : Nat) : Option OutPacket × AmdtpStream :=
  if s.packet_index < 0 then (none, s)
  else
    let db :=
      if s.flags &&& CIP_BLOCKING = 0 ∨ syt ≠ CIP_SYT_NO_INFO then calculate_data_blocks s
      else (0, s)
    let data_blocks := db.1
    -- calculate_data_blocks only writes data_block_state, and amdtp_fill_midi
    -- only writes the MIDI queues, so the header/payload fields below read
    -- the same values the C code reads from `s` at those points
    let header0 := s.source_node_id_field ||| (s.data_block_quadlets <<< AMDTP_DBS_SHIFT) |||
                   s.data_block_counter
    let header1 := CIP_EOH ||| CIP_FMT_AM ||| AMDTP_FDF_AM824 |||
                   (s.sfc <<< CIP_FDF_SFC_SHIFT) ||| syt
    let s2 := if s.midi_ports ≠ 0 then (amdtp_fill_midi db.2 data_blocks).2 else db.2
    let s3 := { s2 with data_block_counter := (s.data_block_counter + data_blocks) &&& 0xff }
    let payload_length := 8 + data_blocks * 4 * s.data_block_quadlets
    let s4 := { s3 with packet_index := (s.packet_index + 1) % (QUEUE_LENGTH : Int) }
    let s5 :=
      match s.pcm with
      | some rt => update_pcm_pointers s4 rt data_blocks
      | none => s4
    (some { header0 := header0, header1 := header1,
            data_blocks := data_blocks, payload_length := payload_length }, s5)

/-! ## Receive path -/

/-- static void handle_in_packet(struct amdtp_stream *s,
unsigned int payload_quadlets, __be32 *buffer).  Returns the updated stream
and `some data_blocks` when the packet was processed, `none` when the packet
was rejected or ignored before any PCM/MIDI work.  The AM824 samples read
into the PCM ring by `transfer_samples` are not modelled; the PCM pointers
and MIDI state are. -/
def handle_in_packet (s : AmdtpStream) (payload_quadlets : Nat) (buffer : List Nat) :
    AmdtpStream × Option Nat :=
  let cip0 := buffer.getD 0 0
  let cip1 := buffer.getD 1 0
  if cip0 &&& CIP_EOH_MASK = CIP_EOH ∨ cip1 &&& CIP_EOH_MASK ≠ CIP_EOH ∨
      cip1 &&& CIP_FMT_MASK ≠ CIP_FMT_AM then
    (s, none)
  else if payload_quadlets < 3 ∨
      (cip1 &&& CIP_FDF_MASK) >>> CIP_FDF_SFC_SHIFT = AMDTP_FDF_NO_DATA then
    (s, none)
  else
    let data_blocks := (payload_quadlets - 2) / s.data_block_quadlets
    let body := buffer.drop 2
    let s1 := if s.midi_ports ≠ 0 then amdtp_pull_midi s body data_blocks else s
    let s2 :=
      match s1.pcm with
      | some rt => update_pcm_pointers s1 rt data_blocks
      | none => s1
    (s2, some data_blocks)

/-! ## Receive packet sorting -/

/-- C array read of the sort table. -/
def sget (tbl : List SortEntry) (i : Nat) : SortEntry :=
  tbl.getD i { id := 0, dbc := 0, payload_size := 0 }

/-- The SWAP macro of amdtp.c (swaps all three fields, i.e. whole entries). -/
def sort_swap (tbl : List SortEntry) (m n : Nat) : List SortEntry :=
  let a := sget tbl m
  let b := sget tbl n
  lset (lset tbl n a) m b

/-- One iteration of the outer do-while of packet_sort at index `i`.  The
inner `for (j = i + 1; j < len; j++)` body ends in an unconditional `break`,
so it runs exactly once with `j = i + 1`; the nested
`for (k = i; k > 0; k--)` likewise breaks after its first iteration
(`k = i`) and does not run at all when `i = 0`. -/
def packet_sort_step (tbl : List SortEntry) (i : Nat) : List SortEntry :=
  let j := i + 1
  if (sget tbl i).dbc > (sget tbl j).dbc ∧
      (sget tbl i).dbc - (sget tbl j).dbc < DBC_THRESHOLD then
    sort_swap tbl i j
  else if (sget tbl j).dbc > (sget tbl i).dbc ∧
      (sget tbl j).dbc - (sget tbl i).dbc > DBC_THRESHOLD then
    if 0 < i then
      if (sget tbl i).dbc > (sget tbl j).dbc ∨
          (sget tbl j).dbc - (sget tbl i).dbc > DBC_THRESHOLD then
        sort_swap tbl j i
      else tbl
    else tbl
  else tbl

/-- The outer do-while of packet_sort: after each iteration `i = j = i + 1`,
and the loop exits once `i + 1 ≥ len`.  `fuel = len` bounds the at most
`len - 1` iterations. -/
def packet_sort_aux (len : Nat) : Nat → List SortEntry → Nat → List SortEntry
  | 0, tbl, _ => tbl
  | fuel + 1, tbl, i =>
    if i + 1 < len then packet_sort_aux len fuel (packet_sort_step tbl i) (i + 1)
    else tbl

/-- static void packet_sort(struct sort_table *tbl, unsigned int len). -/
def packet_sort (tbl : List SortEntry) (len : Nat) : List SortEntry :=
  packet_sort_aux len len tbl 0

/-- The sort-table construction of in_stream_callback: new entries
`(id = i, dbc = be32(buffer[0]) & AMDTP_DBC_MASK, payload_size)` are stored
after the `remain_packets` entries deferred from the previous callback.
`pkts` lists, per newly received packet, its first CIP quadlet and its
payload size. -/
def in_callback_table (deferred : List SortEntry) (pkts : List (Nat × Nat)) :
    List SortEntry :=
  deferred ++ (List.range pkts.length).map (fun i =>
    { id := i, dbc := (pkts.getD i (0, 0)).1 &&& AMDTP_DBC_MASK,
      payload_size := (pkts.getD i (0, 0)).2 })

/-- The entries processed by in_stream_callback in order: the sorted table's
first `remain_packets + packets - packets / 4` entries (the trailing
`packets / 4` are copied to the scratch area for the next callback). -/
def in_callback_processed (deferred : List SortEntry) (pkts : List (Nat × Nat)) :
    List SortEntry :=
  let packets := pkts.length
  let tbl := packet_sort (in_callback_table deferred pkts) (packets + deferred.length)
  tbl.take (deferred.length + packets - packets / 4)

/-! ## SYT offset sequence observers -/

/-- The state part of one calculate_syt call (the cycle argument only enters
the returned SYT word, not the stream state). -/
def syt_cycle_state (s : AmdtpStream) : AmdtpStream :=
  (calculate_syt s 0).2

/-- Advance cycle-by-cycle until calculate_syt generates the next in-cycle
offset.  A cycle whose new `last_syt_offset` overflows `TICKS_PER_CYCLE`
returns `SYT_NO_INFO` and the following cycle subtracts `TICKS_PER_CYCLE`;
since every increment is below `TICKS_PER_CYCLE`, at most one extra cycle is
needed. -/
def syt_emit_next (s : AmdtpStream) : AmdtpStream :=
  if (syt_cycle_state s).last_syt_offset < TICKS_PER_CYCLE then syt_cycle_state s
  else syt_cycle_state (syt_cycle_state s)

/-- The stream state holding the n-th generated SYT offset (in
`last_syt_offset`), starting from stream state `s`. -/
def syt_offsets (s : AmdtpStream) : Nat → AmdtpStream
  | 0 => syt_emit_next s
  | n + 1 => syt_emit_next (syt_offsets s n)

/-! ## Vendor (EFC) command layer -/

/-- AV/C parameters for the vendor-dependent command. -/
def AVC_CTS : Nat := 0x00
def AVC_CTYPE : Nat := 0x00
def AVC_SUBUNIT_TYPE : Nat := 0x1F
def AVC_SUBUNIT_ID : Nat := 0x07
def AVC_OPCODE : Nat := 0x00
def AVC_COMPANY_ID : Nat := 0x00

def EFC_RETVAL_OK : Nat := 0

/-- The sequence-number state of struct snd_efw_t relevant to
efc_over_avc. -/
structure EfwState where
  sequence_number : Nat
deriving DecidableEq

/-- The request buffer built by efc_over_avc: two AV/C quadlets, the six EFC
fields (length, version, seqnum, category, command, retval = 0) and the
parameters.  Quadlets are modelled host-order; the cpu_to_be32 boundary
conversions of the source cancel against the matching conversion on the
response. -/
def efc_request (seqnum version category command : Nat) (params : List Nat) : List Nat :=
  let avc0 := (AVC_CTS <<< 28) ||| (AVC_CTYPE <<< 24) ||| (AVC_SUBUNIT_TYPE <<< 19) |||
              (AVC_SUBUNIT_ID <<< 16) ||| (AVC_OPCODE <<< 8) |||
              ((AVC_COMPANY_ID >>> 16) &&& 0xFF)
  let avc1 := (((AVC_COMPANY_ID >>> 8) &&& 0xFF) <<< 24) ||| ((AVC_COMPANY_ID &&& 0xFF) <<< 16)
  [avc0, avc1, 6 + params.length, version, seqnum, category, command, 0] ++ params

/-- static int efc_over_avc(...).  `device` stands for the
fcp_avc_transaction round trip: it maps the request quadlets to the response
quadlets deposited in cmdbuf.  Returns the quadlets copied into the caller's
response buffer on success, or the error code (-EIO = -5); the second
component is the updated sequence-number state. -/
def efc_over_avc (efw : EfwState) (version category command : Nat)
    (params : List Nat) (response_quadlets : Nat)
    (device : List Nat → List Nat) : Except Int (List Nat) × EfwState :=
  let seqnum := efw.sequence_number
  let sequence_number := (efw.sequence_number + 1) % 2 ^ 32
  let efw1 : EfwState := { sequence_number := sequence_number }
  let rsp := device (efc_request seqnum version category command params)
  let r0 := rsp.getD 0 0
  let r1 := rsp.getD 1 0
  let cts := r0 >>> 28
  let ctype := (r0 >>> 24) &&& 0x0F
  let subunit_type := (r0 >>> 19) &&& 0x1F
  let subunit_id := (r0 >>> 16) &&& 0x07
  let opcode := (r0 >>> 8) &&& 0xFF
  let company_id := ((r0 &&& 0xFF) <<< 16) ||| (((r1 >>> 24) &&& 0xFF) <<< 8) |||
                    ((r1 >>> 16) &&& 0xFF)
  if cts ≠ AVC_CTS ∨ ctype ≠ 0x09 ∨ subunit_type ≠ AVC_SUBUNIT_TYPE ∨
      subunit_id ≠ AVC_SUBUNIT_ID ∨ opcode ≠ AVC_OPCODE ∨ company_id ≠ AVC_COMPANY_ID then
    (Except.error (-5), efw1)
  else
    let e_length := rsp.getD 2 0
    let e_seqnum := rsp.getD 4 0
    let e_category := rsp.getD 5 0
    let e_command := rsp.getD 6 0
    let e_retval := rsp.getD 7 0
    if e_seqnum ≠ sequence_number ∨ e_category ≠ category ∨ e_command ≠ command ∨
        e_retval ≠ EFC_RETVAL_OK then
      (Except.error (-5), efw1)
    else
      let rq := if response_quadlets > e_length then e_length else response_quadlets
      (Except.ok ((rsp.drop 8).take rq), efw1)

/-! # Concrete streams used by witnesses and counterexamples -/

/-- An empty MIDI substream. -/
def empty_midi : MidiState := { tx := [], rx := [] }

/-- A baseline stream configuration: non-blocking transmit, 44.1 kHz,
2 PCM channels, no MIDI. -/
def base_stream : AmdtpStream := {
  flags := 0
  direction := .AMDTP_OUT_STREAM
  sfc := CIP_SFC_44100
  dual_wire := false
  data_block_quadlets := 2
  pcm_channels := 2
  midi_ports := 0
  transfer_samples := .amdtp_write_s16
  pcm_positions := [0, 1]
  midi_position := 2
  syt_interval := 8
  transfer_delay := TRANSFER_DELAY_TICKS - TICKS_PER_CYCLE
  source_node_id_field := 0
  pcm := none
  packet_index := 0
  data_block_counter := 0
  data_block_state := 0
  last_syt_offset := TICKS_PER_CYCLE
  syt_offset_state := 67
  pcm_buffer_pointer := 0
  pcm_period_pointer := 0
  pointer_flush := true
  midi := [none, none, none, none, none, none, none, none]
  blocks_for_midi := 1000000 }

/-! # Proofs for claim C1 -/

lemma calculate_data_blocks_44100 (s : AmdtpStream)
    (hb : s.flags &&& CIP_BLOCKING = 0) (hs : s.sfc = CIP_SFC_44100) :
    calculate_data_blocks s =
      (db44_pattern s.data_block_state,
       { s with data_block_state :=
           if s.data_block_state + 1 ≥ 80 then 0 else s.data_block_state + 1 }) := by
  unfold calculate_data_blocks
  rw [hb, hs]
  norm_num [cip_sfc_is_base_44100, CIP_SFC_44100,
    show (80 >>> (1 >>> 1) : Nat) = 80 from rfl]

lemma calculate_data_blocks_44100_fst (s : AmdtpStream)
    (hb : s.flags &&& CIP_BLOCKING = 0) (hs : s.sfc = CIP_SFC_44100) :
    (calculate_data_blocks s).1 = db44_pattern s.data_block_state := by
  rw [calculate_data_blocks_44100 s hb hs]

lemma calculate_data_blocks_44100_snd (s : AmdtpStream)
    (hb : s.flags &&& CIP_BLOCKING = 0) (hs : s.sfc = CIP_SFC_44100) :
    (calculate_data_blocks s).2 =
      { s with data_block_state :=
          if s.data_block_state + 1 ≥ 80 then 0 else s.data_block_state + 1 } := by
  rw [calculate_data_blocks_44100 s hb hs]

lemma data_blocks_seq_44100 (n : Nat) : ∀ (s : AmdtpStream),
    s.flags &&& CIP_BLOCKING = 0 → s.sfc = CIP_SFC_44100 → s.data_block_state < 80 →
    data_blocks_seq s n = db44_pattern ((s.data_block_state + n) % 80) := by
  induction n with
  | zero =>
    intro s hb hs hp
    rw [data_blocks_seq, calculate_data_blocks_44100_fst s hb hs, Nat.add_zero,
      Nat.mod_eq_of_lt hp]
  | succ n ih =>
    intro s hb hs hp
    rw [data_blocks_seq, calculate_data_blocks_44100_snd s hb hs]
    have hlt : (if s.data_block_state + 1 ≥ 80 then 0 else s.data_block_state + 1) < 80 := by
      split <;> omega
    rw [ih ({ s with data_block_state :=
      if s.data_block_state + 1 ≥ 80 then 0 else s.data_block_state + 1 }) hb hs hlt]
    show db44_pattern (((if s.data_block_state + 1 ≥ 80 then 0 else s.data_block_state + 1)
        + n) % 80) = db44_pattern ((s.data_block_state + (n + 1)) % 80)
    congr 1
    split <;> omega

lemma sum_range_split (f : Nat → Nat) (a b : Nat) :
    (∑ i ∈ Finset.range (a + b), f i)
      = (∑ i ∈ Finset.range a, f i) + ∑ i ∈ Finset.range b, f (a + i) := by
  induction b with
  | zero => simp
  | succ n ih =>
    rw [show a + (n + 1) = (a + n) + 1 from rfl, Finset.sum_range_succ, ih,
      Finset.sum_range_succ]
    omega

set_option maxHeartbeats 1000000 in
set_option maxRecDepth 10000 in
lemma db44_window_sum : ∀ r < 80,
    (∑ i ∈ Finset.range 80, db44_pattern ((r + i) % 80)) = 441 := by decide

/-- Claim C1: for a non-blocking stream at 44.1 kHz started by
amdtp_stream_start (data_block_state starts at the per-SFC value 0), the
data-block counts returned by successive calculate_data_blocks calls are
periodic with period 80, begin 6, 6, 5, 6, 5, 6, 5, each term is
`5 + ((phase & 1) ^ (phase == 0 || phase >= 40))` at pre-call phase
`n % 80`, every 80 consecutive terms sum to 441, and any contiguous 8000
terms sum to exactly 44100. -/
theorem C1_nonblocking_44100 (s : AmdtpStream)
    (hb : s.flags &&& CIP_BLOCKING = 0) (hs : s.sfc = CIP_SFC_44100) :
    (∀ n, data_blocks_seq (amdtp_stream_start_state s) (n + 80)
        = data_blocks_seq (amdtp_stream_start_state s) n) ∧
    ([data_blocks_seq (amdtp_stream_start_state s) 0,
      data_blocks_seq (amdtp_stream_start_state s) 1,
      data_blocks_seq (amdtp_stream_start_state s) 2,
      data_blocks_seq (amdtp_stream_start_state s) 3,
      data_blocks_seq (amdtp_stream_start_state s) 4,
      data_blocks_seq (amdtp_stream_start_state s) 5,
      data_blocks_seq (amdtp_stream_start_state s) 6] = [6, 6, 5, 6, 5, 6, 5]) ∧
    (∀ n, data_blocks_seq (amdtp_stream_start_state s) n
        = 5 + ((n % 80 &&& 1) ^^^ (if n % 80 = 0 ∨ n % 80 ≥ 40 then 1 else 0))) ∧
    (∀ k, (∑ i ∈ Finset.range 80,
        data_blocks_seq (amdtp_stream_start_state s) (k + i)) = 441) ∧
    (∀ k, (∑ i ∈ Finset.range 8000,
        data_blocks_seq (amdtp_stream_start_state s) (k + i)) = 44100) := by
  have hfl : (amdtp_stream_start_state s).flags = s.flags := rfl
  have hsf : (amdtp_stream_start_state s).sfc = s.sfc := rfl
  have h0 : (amdtp_stream_start_state s).data_block_state = 0 := by
    simp [amdtp_stream_start_state, initial_state, hs, CIP_SFC_44100]
  have key : ∀ n, data_blocks_seq (amdtp_stream_start_state s) n = db44_pattern (n % 80) := by
    intro n
    rw [data_blocks_seq_44100 n _ (hfl ▸ hb) (hsf ▸ hs) (h0 ▸ Nat.zero_lt_succ 79), h0]
    simp
  have win : ∀ k, (∑ i ∈ Finset.range 80,
      data_blocks_seq (amdtp_stream_start_state s) (k + i)) = 441 := by
    intro k
    have : ∀ i, data_blocks_seq (amdtp_stream_start_state s) (k + i)
        = db44_pattern ((k % 80 + i) % 80) := by
      intro i
      rw [key]
      congr 1
      rw [Nat.mod_add_mod]
    rw [Finset.sum_congr rfl (fun i _ => this i)]
    exact db44_window_sum (k % 80) (Nat.mod_lt _ (by norm_num))
  refine ⟨?_, ?_, ?_, win, ?_⟩
  · intro n
    rw [key, key]
    congr 1
    omega
  · rw [key 0, key 1, key 2, key 3, key 4, key 5, key 6]
    decide
  · intro n
    rw [key n]
    rfl
  · have chunk : ∀ m k, (∑ i ∈ Finset.range (80 * m),
        data_blocks_seq (amdtp_stream_start_state s) (k + i)) = 441 * m := by
      intro m
      induction m with
      | zero => intro k; simp
      | succ mm ih =>
        intro k
        rw [show 80 * (mm + 1) = 80 * mm + 80 from by ring, sum_range_split, ih k]
        have : (∑ i ∈ Finset.range 80,
            data_blocks_seq (amdtp_stream_start_state s) (k + (80 * mm + i)))
            = ∑ i ∈ Finset.range 80,
              data_blocks_seq (amdtp_stream_start_state s) ((k + 80 * mm) + i) := by
          apply Finset.sum_congr rfl
          intro i _
          congr 1
          omega
        rw [this, win (k + 80 * mm)]
        ring
    intro k
    have := chunk 100 k
    norm_num at this
    exact this

/-- Witness for C1 at the concrete baseline 44.1 kHz non-blocking stream. -/
theorem C1_witness :
    base_stream.flags &&& CIP_BLOCKING = 0 ∧ base_stream.sfc = CIP_SFC_44100 ∧
    (∑ i ∈ Finset.range 80, data_blocks_seq (amdtp_stream_start_state base_stream) (0 + i))
      = 441 :=
  ⟨by decide, by decide,
   (C1_nonblocking_44100 base_stream (by decide) (by decide)).2.2.2.1 0⟩

/-! # Proofs for claims C2 and C5 -/

lemma calculate_data_blocks_blocking (s : AmdtpStream) (hb : s.flags &&& CIP_BLOCKING ≠ 0) :
    calculate_data_blocks s = (s.syt_interval, s) := by
  unfold calculate_data_blocks
  simp [hb]

/-- A concrete blocking-mode 96 kHz stream. -/
def blocking_stream : AmdtpStream :=
  { base_stream with flags := CIP_BLOCKING, sfc := CIP_SFC_96000, syt_interval := 16 }

/-- Counterexample to C2 as stated: on a blocking stream handed
SYT = 0xFFFF, handle_out_packet builds a NO-DATA packet (0 data blocks)
whose word 1 still carries the sfc code (4) in the FDF field; the FDF field
is not replaced by 0xFF. -/
theorem C2_counterexample :
    ((handle_out_packet blocking_stream CIP_SYT_NO_INFO).1.map
        (fun p => (p.data_blocks, (p.header1 &&& CIP_FDF_MASK) >>> CIP_FDF_SFC_SHIFT)))
      = some (0, CIP_SFC_96000) ∧ CIP_SFC_96000 ≠ AMDTP_FDF_NO_DATA := by decide

/-- Claim C2 (amended): every packet built by handle_out_packet has
`payload_length = 8 + data_blocks * 4 * data_block_quadlets`; a NO-DATA
packet (data_blocks = 0, produced in blocking mode when the SYT is 0xFFFF)
still carries a two-quadlet CIP header, but its word 1 keeps the stream's
sfc code in the FDF field (the code does not substitute 0xFF) and carries
0xFFFF in the SYT field. -/
theorem C2_payload_and_nodata (s : AmdtpStream) (syt : Nat) (p : OutPacket) (t : AmdtpStream)
    (h : handle_out_packet s syt = (some p, t)) :
    p.payload_length = 8 + p.data_blocks * 4 * s.data_block_quadlets ∧
    (s.flags &&& CIP_BLOCKING ≠ 0 → syt = CIP_SYT_NO_INFO → s.sfc < CIP_SFC_COUNT →
      p.data_blocks = 0 ∧
      (p.header1 &&& CIP_FDF_MASK) >>> CIP_FDF_SFC_SHIFT = s.sfc ∧
      p.header1 &&& CIP_SYT_MASK = CIP_SYT_NO_INFO) := by
  unfold handle_out_packet at h
  split at h
  · simp at h
  · rw [Prod.mk.injEq] at h
    obtain ⟨h1, h2⟩ := h
    rw [Option.some.injEq] at h1
    subst h1
    clear h2
    refine ⟨rfl, ?_⟩
    intro hb hsyt hsfc
    subst hsyt
    rw [if_neg (by push_neg; exact ⟨hb, rfl⟩)]
    refine ⟨rfl, ?_, ?_⟩
    · show (((CIP_EOH ||| CIP_FMT_AM ||| AMDTP_FDF_AM824 |||
          (s.sfc <<< CIP_FDF_SFC_SHIFT) ||| CIP_SYT_NO_INFO) &&& CIP_FDF_MASK) >>>
          CIP_FDF_SFC_SHIFT) = s.sfc
      have h7 : s.sfc < 7 := hsfc
      generalize s.sfc = c at h7 ⊢
      interval_cases c <;> decide
    · show ((CIP_EOH ||| CIP_FMT_AM ||| AMDTP_FDF_AM824 |||
          (s.sfc <<< CIP_FDF_SFC_SHIFT) ||| CIP_SYT_NO_INFO) &&& CIP_SYT_MASK)
          = CIP_SYT_NO_INFO
      have h7 : s.sfc < 7 := hsfc
      generalize s.sfc = c at h7 ⊢
      interval_cases c <;> decide

/-- The packet and stream state produced by the C2/C5 concrete runs. -/
def c2_packet : OutPacket :=
  { header0 := 0x20000, header1 := 0x9004FFFF, data_blocks := 0, payload_length := 8 }

def c2_after : AmdtpStream := { blocking_stream with packet_index := 1 }

/-- Witness for C2: the blocking stream at SYT = 0xFFFF. -/
theorem C2_witness :
    handle_out_packet blocking_stream CIP_SYT_NO_INFO = (some c2_packet, c2_after) ∧
    c2_packet.payload_length
      = 8 + c2_packet.data_blocks * 4 * blocking_stream.data_block_quadlets ∧
    (c2_packet.header1 &&& CIP_FDF_MASK) >>> CIP_FDF_SFC_SHIFT = blocking_stream.sfc :=
  ⟨by decide, (C2_payload_and_nodata blocking_stream CIP_SYT_NO_INFO c2_packet c2_after
      (by decide)).1,
   ((C2_payload_and_nodata blocking_stream CIP_SYT_NO_INFO c2_packet c2_after
      (by decide)).2 (by decide) rfl (by decide)).2.1⟩

/-- Claim C5: every packet a CIP_BLOCKING transmit stream emits carries
either 0 or syt_interval data blocks: handle_out_packet uses 0 when the
computed SYT is 0xFFFF, and calculate_data_blocks returns exactly
syt_interval otherwise. -/
theorem C5_blocking_data_blocks (s : AmdtpStream) (syt : Nat) (p : OutPacket)
    (t : AmdtpStream) (hb : s.flags &&& CIP_BLOCKING ≠ 0)
    (h : handle_out_packet s syt = (some p, t)) :
    p.data_blocks = 0 ∨ p.data_blocks = s.syt_interval := by
  unfold handle_out_packet at h
  split at h
  · simp at h
  · rw [Prod.mk.injEq] at h
    obtain ⟨h1, h2⟩ := h
    rw [Option.some.injEq] at h1
    subst h1
    clear h2
    by_cases hsyt : syt = CIP_SYT_NO_INFO
    · subst hsyt
      rw [if_neg (by push_neg; exact ⟨hb, rfl⟩)]
      left
      rfl
    · rw [if_pos (Or.inr hsyt), calculate_data_blocks_blocking s hb]
      right
      rfl

def c5_packet : OutPacket :=
  { header0 := 0x20000, header1 := 0x90041234, data_blocks := 16, payload_length := 136 }

def c5_after : AmdtpStream :=
  { blocking_stream with data_block_counter := 16, packet_index := 1 }

/-- Witness for C5: the blocking stream at a concrete in-cycle SYT. -/
theorem C5_witness :
    blocking_stream.flags &&& CIP_BLOCKING ≠ 0 ∧
    (c5_packet.data_blocks = 0 ∨ c5_packet.data_blocks = blocking_stream.syt_interval) :=
  ⟨by decide,
   C5_blocking_data_blocks blocking_stream 0x1234 c5_packet c5_after (by decide) (by decide)⟩

/-! # Proofs for claim C4 -/

/-- The wrap-aware adjacent ordering packet_sort is meant to establish:
entry with dbc `a` may precede one with dbc `b` unless the comparator of
packet_sort would swap them (a plain or a wrap-aware inversion). -/
def dbc_in_order (a b : Nat) : Bool :=
  decide (¬ ((a > b ∧ a - b < DBC_THRESHOLD) ∨ (b > a ∧ b - a > DBC_THRESHOLD)))

/-- A dbc list is sorted when every adjacent pair is in wrap-aware order. -/
def dbc_sorted : List Nat → Bool
  | a :: b :: rest => dbc_in_order a b && dbc_sorted (b :: rest)
  | _ => true

/-- Claim C4 at the code: the concrete spec scenario (arrival order 8, 24,
16) is processed as 8, 16, 24, but packet_sort does not in general order the
table under the wrap-aware comparator: with arrival order 16, 24, 8 the
single adjacent-compare pass the mangled loop performs leaves 16, 8, 24,
which is not ordered. -/
theorem C4_sort_code_bug :
    ((in_callback_processed [] [(8, 32), (24, 32), (16, 32)]).map SortEntry.dbc
      = [8, 16, 24]) ∧
    ((packet_sort [⟨0, 16, 32⟩, ⟨1, 24, 32⟩, ⟨2, 8, 32⟩] 3).map SortEntry.dbc
      = [16, 8, 24]) ∧
    dbc_sorted ((packet_sort [⟨0, 16, 32⟩, ⟨1, 24, 32⟩, ⟨2, 8, 32⟩] 3).map SortEntry.dbc)
      = false := by
  decide

/-! # Proofs for claim C9 -/

/-- A receive stream with two attached MIDI ports and one quadlet per data
block. -/
def c9_stream : AmdtpStream := { base_stream with
  direction := .AMDTP_IN_STREAM
  data_block_quadlets := 1
  midi_position := 0
  midi_ports := 2
  midi := [some empty_midi, some empty_midi, none, none, none, none, none, none]
  blocks_for_midi := 8 }

/-- The transmit-side mirror of the same situation: port 0 idle, port 1 has
one pending byte 0x42. -/
def c9_byte_midi : MidiState := { tx := [0x42], rx := [] }

def c9_tx_stream : AmdtpStream := { c9_stream with
  direction := .AMDTP_OUT_STREAM
  midi := [some empty_midi, some c9_byte_midi, none, none, none, none, none, none] }

/-- Claim C9 at the code: the transmit multiplexer behaves as the claim says
(block 0 goes to port 0 and is empty, block 1 goes to port 1 and carries
0x81 + one byte), but the receive demultiplexer is not symmetric: fed
exactly that two-block payload, amdtp_pull_midi delivers nothing, because
after skipping the empty block 0 its buffer pointer never advances (the
`buffer += s->data_block_quadlets` sits below the `continue`s), so block 1
is never read. -/
theorem C9_pull_midi_stall :
    ((amdtp_fill_midi c9_tx_stream 2).1 = [0x80000000, 0x81420000]) ∧
    ((amdtp_pull_midi c9_stream [0x80000000, 0x81420000] 2).midi = c9_stream.midi) ∧
    (lget ((amdtp_pull_midi c9_stream [0x80000000, 0x81420000] 2).midi) 1
      = some empty_midi) := by
  decide

/-! # Proofs for claim C10 -/

/-- Claim C10: for a receive stream, set_pcm_format installs the same
transfer function for S16 as for S32 (the 32-bit reader or its dual-wire
variant); the 16-bit packers are installed only on transmit streams. -/
theorem C10_pcm_format (s : AmdtpStream)
    (h : s.direction = AmdtpStreamDirection.AMDTP_IN_STREAM) :
    ((amdtp_stream_set_pcm_format s SndPcmFormat.S16).transfer_samples
      = (amdtp_stream_set_pcm_format s SndPcmFormat.S32).transfer_samples) ∧
    ((amdtp_stream_set_pcm_format s SndPcmFormat.S16).transfer_samples
      = (if s.dual_wire then TransferFn.amdtp_read_s32_dualwire
         else TransferFn.amdtp_read_s32)) ∧
    (∀ (t : AmdtpStream) (fmt : SndPcmFormat),
       ((amdtp_stream_set_pcm_format t fmt).transfer_samples = TransferFn.amdtp_write_s16 ∨
        (amdtp_stream_set_pcm_format t fmt).transfer_samples
          = TransferFn.amdtp_write_s16_dualwire) →
       t.direction = AmdtpStreamDirection.AMDTP_OUT_STREAM) := by
  have hd : ¬ s.direction = AmdtpStreamDirection.AMDTP_OUT_STREAM := by
    rw [h]
    exact fun hc => AmdtpStreamDirection.noConfusion hc
  refine ⟨?_, ?_, ?_⟩
  · unfold amdtp_stream_set_pcm_format
    rw [if_neg hd, if_neg hd]
  · unfold amdtp_stream_set_pcm_format
    rw [if_neg hd]
    by_cases hdw : s.dual_wire <;> simp [hdw]
  · intro t fmt hw
    by_cases ht : t.direction = AmdtpStreamDirection.AMDTP_OUT_STREAM
    · exact ht
    · exfalso
      unfold amdtp_stream_set_pcm_format at hw
      cases fmt <;> by_cases hdw : t.dual_wire <;> simp [ht, hdw] at hw

def c10_stream : AmdtpStream := { base_stream with direction := .AMDTP_IN_STREAM }

/-- Witness for C10: the concrete receive stream. -/
theorem C10_witness :
    c10_stream.direction = AmdtpStreamDirection.AMDTP_IN_STREAM ∧
    (amdtp_stream_set_pcm_format c10_stream SndPcmFormat.S16).transfer_samples
      = (amdtp_stream_set_pcm_format c10_stream SndPcmFormat.S32).transfer_samples :=
  ⟨rfl, (C10_pcm_format c10_stream rfl).1⟩

/-! # Proofs for claim C7 -/

/-- Claim C7: handle_in_packet returns without touching PCM or MIDI state
when (a) word 0 has the EOH bit set, word 1 has it clear, or word 1's FMT is
not AM824, (b) payload_quadlets < 3, or (c) the FDF field is 0xFF; otherwise
it processes exactly (payload_quadlets - 2) / data_block_quadlets blocks,
a count that never reads the packet's dbs/dbc fields. -/
theorem C7_in_packet_filtering (s : AmdtpStream) (pq : Nat) (buffer : List Nat) :
    (((buffer.getD 0 0) &&& CIP_EOH_MASK = CIP_EOH ∨
      (buffer.getD 1 0) &&& CIP_EOH_MASK ≠ CIP_EOH ∨
      (buffer.getD 1 0) &&& CIP_FMT_MASK ≠ CIP_FMT_AM) →
      handle_in_packet s pq buffer = (s, none)) ∧
    (pq < 3 → handle_in_packet s pq buffer = (s, none)) ∧
    ((((buffer.getD 1 0) &&& CIP_FDF_MASK) >>> CIP_FDF_SFC_SHIFT = AMDTP_FDF_NO_DATA) →
      handle_in_packet s pq buffer = (s, none)) ∧
    ((¬ ((buffer.getD 0 0) &&& CIP_EOH_MASK = CIP_EOH ∨
         (buffer.getD 1 0) &&& CIP_EOH_MASK ≠ CIP_EOH ∨
         (buffer.getD 1 0) &&& CIP_FMT_MASK ≠ CIP_FMT_AM)) →
      3 ≤ pq →
      ((buffer.getD 1 0) &&& CIP_FDF_MASK) >>> CIP_FDF_SFC_SHIFT ≠ AMDTP_FDF_NO_DATA →
      (handle_in_packet s pq buffer).2 = some ((pq - 2) / s.data_block_quadlets)) := by
  refine ⟨?_, ?_, ?_, ?_⟩
  · intro hbad
    simp only [handle_in_packet]
    rw [if_pos hbad]
  · intro hpq
    simp only [handle_in_packet]
    split
    · rfl
    · rw [if_pos (Or.inl hpq)]
  · intro hfdf
    simp only [handle_in_packet]
    split
    · rfl
    · rw [if_pos (Or.inr hfdf)]
  · intro hok hpq hfdf
    simp only [handle_in_packet]
    rw [if_neg hok, if_neg (by push_neg; exact ⟨by omega, hfdf⟩)]

/-- A well-formed one-block AM824 packet (payload 5 quadlets, FDF = sfc 1). -/
def c7_buffer : List Nat := [0x00020000, 0x90010000, 0x40000001, 0x40000002, 0x40000003]

/-- Witness for C7: the valid concrete packet is processed with
(5 - 2) / 2 = 1 data block. -/
theorem C7_witness :
    (¬ ((c7_buffer.getD 0 0) &&& CIP_EOH_MASK = CIP_EOH ∨
        (c7_buffer.getD 1 0) &&& CIP_EOH_MASK ≠ CIP_EOH ∨
        (c7_buffer.getD 1 0) &&& CIP_FMT_MASK ≠ CIP_FMT_AM)) ∧
    (handle_in_packet base_stream 5 c7_buffer).2
      = some ((5 - 2) / base_stream.data_block_quadlets) :=
  ⟨by decide,
   (C7_in_packet_filtering base_stream 5 c7_buffer).2.2.2 (by decide) (by decide) (by decide)⟩

/-! # Proofs for claim C6 -/

/-- Claim C6: with CIP_HI_DUALWIRE set and a rate above 96 kHz,
set_parameters stores sfc reduced by 2, doubles the stored pcm_channels and
computes transfer_delay from the halved rate; and on a dual-wire stream
update_pcm_pointers advances the PCM buffer pointer by 2 frames per data
block (wrapping once past buffer_size). -/
theorem C6_dualwire (s : AmdtpStream) (rate P midi_ports : Nat)
    (hdw : s.flags &&& CIP_HI_DUALWIRE ≠ 0)
    (hrate : rate = 176400 ∨ rate = 192000)
    (hP : P ≤ AMDTP_MAX_CHANNELS_FOR_PCM) (hm : midi_ports ≤ 8) :
    (∃ t, amdtp_stream_set_parameters s rate P midi_ports = some t ∧
       t.dual_wire = true ∧
       t.sfc = (if rate = 192000 then CIP_SFC_96000 else CIP_SFC_88200) ∧
       t.pcm_channels = 2 * P ∧
       t.transfer_delay = TRANSFER_DELAY_TICKS - TICKS_PER_CYCLE +
         (if s.flags &&& CIP_BLOCKING ≠ 0
          then TICKS_PER_SECOND * t.syt_interval / (rate / 2) else 0)) ∧
    (∀ (u : AmdtpStream) (rt : PcmRuntime) (frames : Nat),
       u.dual_wire = true → u.pcm_buffer_pointer < rt.buffer_size →
       u.pcm_buffer_pointer + 2 * frames < 2 * rt.buffer_size →
       (update_pcm_pointers u rt frames).pcm_buffer_pointer
         = (u.pcm_buffer_pointer + 2 * frames) % rt.buffer_size) := by
  have hdw2 : (s.flags &&& CIP_HI_DUALWIRE != 0) = true := by simpa using hdw
  constructor
  · have hguard : ¬ (P > AMDTP_MAX_CHANNELS_FOR_PCM ∨
        (midi_ports + 7) / 8 > AMDTP_MAX_CHANNELS_FOR_MIDI) := by
      push_neg
      refine ⟨hP, ?_⟩
      show (midi_ports + 7) / 8 ≤ 1
      omega
    rcases hrate with h | h <;> subst h
    · have hl : sfc_lookup 176400 = some 5 := by decide
      simp only [amdtp_stream_set_parameters, hl, if_neg hguard]
      refine ⟨_, rfl, ?_, ?_, ?_, ?_⟩
      · show ((s.flags &&& CIP_HI_DUALWIRE != 0) && decide (5 > CIP_SFC_96000)) = true
        rw [hdw2]
        decide
      · show (if ((s.flags &&& CIP_HI_DUALWIRE != 0) && decide (5 > CIP_SFC_96000)) = true
            then 5 - 2 else 5) = CIP_SFC_88200
        rw [hdw2]
        decide
      · show (if ((s.flags &&& CIP_HI_DUALWIRE != 0) && decide (5 > CIP_SFC_96000)) = true
            then P * 2 else P) = 2 * P
        rw [hdw2, if_pos (by decide)]
        ring
      · show TRANSFER_DELAY_TICKS - TICKS_PER_CYCLE +
            (if (s.flags &&& CIP_BLOCKING != 0) = true
             then TICKS_PER_SECOND *
                 (amdtp_syt_intervals.getD
                   (if ((s.flags &&& CIP_HI_DUALWIRE != 0) && decide (5 > CIP_SFC_96000)) = true
                    then 5 - 2 else 5) 0) /
                 (if ((s.flags &&& CIP_HI_DUALWIRE != 0) && decide (5 > CIP_SFC_96000)) = true
                  then 176400 / 2 else 176400)
             else 0)
          = TRANSFER_DELAY_TICKS - TICKS_PER_CYCLE +
            (if s.flags &&& CIP_BLOCKING ≠ 0
             then TICKS_PER_SECOND *
                 (amdtp_syt_intervals.getD
                   (if ((s.flags &&& CIP_HI_DUALWIRE != 0) && decide (5 > CIP_SFC_96000)) = true
                    then 5 - 2 else 5) 0) / (176400 / 2)
             else 0)
        rw [hdw2]
        by_cases hb : s.flags &&& CIP_BLOCKING = 0
        · rw [if_neg (by simp [hb]), if_neg (by simp [hb])]
        · rw [if_pos (by simpa using hb), if_pos hb, if_pos (by decide),
            if_pos (by decide)]
    · have hl : sfc_lookup 192000 = some 6 := by decide
      simp only [amdtp_stream_set_parameters, hl, if_neg hguard]
      refine ⟨_, rfl, ?_, ?_, ?_, ?_⟩
      · show ((s.flags &&& CIP_HI_DUALWIRE != 0) && decide (6 > CIP_SFC_96000)) = true
        rw [hdw2]
        decide
      · show (if ((s.flags &&& CIP_HI_DUALWIRE != 0) && decide (6 > CIP_SFC_96000)) = true
            then 6 - 2 else 6) = CIP_SFC_96000
        rw [hdw2]
        decide
      · show (if ((s.flags &&& CIP_HI_DUALWIRE != 0) && decide (6 > CIP_SFC_96000)) = true
            then P * 2 else P) = 2 * P
        rw [hdw2, if_pos (by decide)]
        ring
      · show TRANSFER_DELAY_TICKS - TICKS_PER_CYCLE +
            (if (s.flags &&& CIP_BLOCKING != 0) = true
             then TICKS_PER_SECOND *
                 (amdtp_syt_intervals.getD
                   (if ((s.flags &&& CIP_HI_DUALWIRE != 0) && decide (6 > CIP_SFC_96000)) = true
                    then 6 - 2 else 6) 0) /
                 (if ((s.flags &&& CIP_HI_DUALWIRE != 0) && decide (6 > CIP_SFC_96000)) = true
                  then 192000 / 2 else 192000)
             else 0)
          = TRANSFER_DELAY_TICKS - TICKS_PER_CYCLE +
            (if s.flags &&& CIP_BLOCKING ≠ 0
             then TICKS_PER_SECOND *
                 (amdtp_syt_intervals.getD
                   (if ((s.flags &&& CIP_HI_DUALWIRE != 0) && decide (6 > CIP_SFC_96000)) = true
                    then 6 - 2 else 6) 0) / (192000 / 2)
             else 0)
        rw [hdw2]
        by_cases hb : s.flags &&& CIP_BLOCKING = 0
        · rw [if_neg (by simp [hb]), if_neg (by simp [hb])]
        · rw [if_pos (by simpa using hb), if_pos hb, if_pos (by decide),
            if_pos (by decide)]
  · intro u rt frames hdw1 h1 h2
    unfold update_pcm_pointers
    rw [hdw1]
    have hmul : frames * 2 = 2 * frames := Nat.mul_comm frames 2
    simp only [if_true, hmul]
    split <;> dsimp only <;> split
    · rw [Nat.mod_eq_sub_mod (by omega), Nat.mod_eq_of_lt (by omega)]
    · rw [Nat.mod_eq_of_lt (by omega)]
    · rw [Nat.mod_eq_sub_mod (by omega), Nat.mod_eq_of_lt (by omega)]
    · rw [Nat.mod_eq_of_lt (by omega)]

/-- The concrete dual-wire blocking stream of the C6 scenario. -/
def dw_stream : AmdtpStream :=
  { base_stream with flags := CIP_HI_DUALWIRE ||| CIP_BLOCKING }

/-- Witness for C6: dual-wire stream configured at 192 kHz with 4 PCM
channels. -/
theorem C6_witness :
    dw_stream.flags &&& CIP_HI_DUALWIRE ≠ 0 ∧
    (∃ t, amdtp_stream_set_parameters dw_stream 192000 4 0 = some t ∧
       t.dual_wire = true ∧
       t.sfc = (if (192000 : Nat) = 192000 then CIP_SFC_96000 else CIP_SFC_88200) ∧
       t.pcm_channels = 2 * 4 ∧
       t.transfer_delay = TRANSFER_DELAY_TICKS - TICKS_PER_CYCLE +
         (if dw_stream.flags &&& CIP_BLOCKING ≠ 0
          then TICKS_PER_SECOND * t.syt_interval / (192000 / 2) else 0)) :=
  ⟨by decide,
   (C6_dualwire dw_stream 192000 4 0 (by decide) (Or.inr rfl) (by decide) (by decide)).1⟩

/-! # Proofs for claim C8 -/

/-- Claim C8 (amended): efc_over_avc succeeds only when the response's EFC
sequence field equals the request's sequence plus one modulo 2^32 (the
device increments the sequence in its reply), its category and command equal
the request's and its retval is OK; on any mismatch of these it returns
-EIO and the caller's response buffer is not filled; and every call advances
the stored 32-bit sequence number by one modulo 2^32. -/
theorem C8_efc_checks (efw : EfwState) (version category command : Nat)
    (params : List Nat) (rq : Nat) (device : List Nat → List Nat) :
    ((efc_over_avc efw version category command params rq device).2.sequence_number
       = (efw.sequence_number + 1) % 2 ^ 32) ∧
    (∀ out,
      (efc_over_avc efw version category command params rq device).1 = Except.ok out →
      ((device (efc_request efw.sequence_number version category command params)).getD 4 0
          = (efw.sequence_number + 1) % 2 ^ 32 ∧
       (device (efc_request efw.sequence_number version category command params)).getD 5 0
          = category ∧
       (device (efc_request efw.sequence_number version category command params)).getD 6 0
          = command ∧
       (device (efc_request efw.sequence_number version category command params)).getD 7 0
          = EFC_RETVAL_OK)) ∧
    (((device (efc_request efw.sequence_number version category command params)).getD 4 0
         ≠ (efw.sequence_number + 1) % 2 ^ 32 ∨
      (device (efc_request efw.sequence_number version category command params)).getD 5 0
         ≠ category ∨
      (device (efc_request efw.sequence_number version category command params)).getD 6 0
         ≠ command ∨
      (device (efc_request efw.sequence_number version category command params)).getD 7 0
         ≠ EFC_RETVAL_OK) →
      (efc_over_avc efw version category command params rq device).1
        = Except.error (-5)) := by
  refine ⟨?_, ?_, ?_⟩
  · simp only [efc_over_avc]
    split
    · rfl
    · split <;> rfl
  · intro out hok
    simp only [efc_over_avc] at hok
    split at hok
    · simp at hok
    · split at hok
      · simp at hok
      next h2 =>
        push_neg at h2
        exact h2
  · intro hmis
    simp only [efc_over_avc]
    split
    · rfl
    · rfl

/-- A device that echoes the request's own sequence number (5) back, with
matching category 3, command 1 and retval OK, behind a valid ACCEPTED AV/C
frame. -/
def c8_device_echo : List Nat → List Nat :=
  fun _ => [0x09FF0000, 0, 9, 1, 5, 3, 1, 0, 7, 7, 7]

/-- Counterexample to C8 as stated: a response whose sequence, category,
command and retval literally agree with the request (sequence = 5 = the
request's) is rejected with -EIO, because the code requires the response
sequence to equal the request's sequence plus one. -/
theorem C8_counterexample :
    ((c8_device_echo (efc_request 5 1 3 1 [])).getD 4 0 = 5 ∧
     (efc_request 5 1 3 1 []).getD 4 0 = 5 ∧
     (c8_device_echo (efc_request 5 1 3 1 [])).getD 5 0 = 3 ∧
     (c8_device_echo (efc_request 5 1 3 1 [])).getD 6 0 = 1 ∧
     (c8_device_echo (efc_request 5 1 3 1 [])).getD 7 0 = EFC_RETVAL_OK) ∧
    (efc_over_avc { sequence_number := 5 } 1 3 1 [] 2 c8_device_echo).1
      = Except.error (-5) :=
  ⟨by decide, rfl⟩

/-- A device that replies with sequence 6 = request sequence + 1. -/
def c8_device_ok : List Nat → List Nat :=
  fun _ => [0x09FF0000, 0, 9, 1, 6, 3, 1, 0, 7, 8, 9]

/-- Witness for C8: a successful transaction against the well-behaved
device implies all four response-field checks. -/
theorem C8_witness :
    (c8_device_ok (efc_request (5 : Nat) 1 3 1 [])).getD 4 0 = (5 + 1) % 2 ^ 32 ∧
    (c8_device_ok (efc_request (5 : Nat) 1 3 1 [])).getD 5 0 = 3 ∧
    (c8_device_ok (efc_request (5 : Nat) 1 3 1 [])).getD 6 0 = 1 ∧
    (c8_device_ok (efc_request (5 : Nat) 1 3 1 [])).getD 7 0 = EFC_RETVAL_OK :=
  (C8_efc_checks { sequence_number := 5 } 1 3 1 [] 2 c8_device_ok).2.1 [7, 8] rfl

/-! # Proofs for claim C3 -/

/-- Proof model: cumulative tick count after n generating steps of the
44.1 kHz-base branch of calculate_syt, starting at phase 67 (the
per-SFC initial syt_offset_state). -/
def syt_ticks : Nat → Nat
  | 0 => 0
  | n + 1 => syt_ticks n + 1386 + syt_corr ((67 + n) % 147)

/-- The claim's ideal presentation times, round(n * syt_interval * 24576000
/ rate), written as the floor of (2x + rate) / (2 rate); no tie ever occurs
at the 44.1 kHz-base rates, so this is the unambiguous rounding. -/
def syt_round (si rate n : Nat) : Nat :=
  (2 * (n * si * 24576000) + rate) / (2 * rate)

/-- Common reduced form of syt_round at all three 44.1 kHz-base rates: the
exact per-step increment is 655360 / 147 ticks. -/
def syt_round_red (n : Nat) : Nat := (2 * (n * 655360) + 147) / 294

lemma syt_round_44100 (n : Nat) : syt_round 8 44100 n = syt_round_red n := by
  unfold syt_round syt_round_red
  rw [show 2 * (n * 8 * 24576000) + 44100 = 300 * (2 * (n * 655360) + 147) from by ring,
    show 2 * 44100 = 300 * 294 from by norm_num,
    Nat.mul_div_mul_left _ _ (by norm_num)]

lemma syt_round_88200 (n : Nat) : syt_round 16 88200 n = syt_round_red n := by
  unfold syt_round syt_round_red
  rw [show 2 * (n * 16 * 24576000) + 88200 = 600 * (2 * (n * 655360) + 147) from by ring,
    show 2 * 88200 = 600 * 294 from by norm_num,
    Nat.mul_div_mul_left _ _ (by norm_num)]

lemma syt_round_176400 (n : Nat) : syt_round 32 176400 n = syt_round_red n := by
  unfold syt_round syt_round_red
  rw [show 2 * (n * 32 * 24576000) + 176400 = 1200 * (2 * (n * 655360) + 147) from by ring,
    show 2 * 176400 = 1200 * 294 from by norm_num,
    Nat.mul_div_mul_left _ _ (by norm_num)]

lemma syt_corr_le_one (p : Nat) : syt_corr p ≤ 1 := by
  have h : syt_corr p
      = if ((p % 13 ≠ 0 ∧ p % 13 &&& 3 = 0) ∨ p = 146) then 1 else 0 := rfl
  rw [h]
  split <;> omega

/-- The code's correction condition, `(index && !(index & 3)) || phase ==
146`, selects exactly the sub-cycle positions 4, 8, 12 (and phase 146). -/
lemma syt_corr_eq (p : Nat) :
    syt_corr p
      = if p % 13 = 4 ∨ p % 13 = 8 ∨ p % 13 = 12 ∨ p = 146 then 1 else 0 := by
  have h13 : p % 13 < 13 := Nat.mod_lt _ (by norm_num)
  have hfwd : ∀ i, i < 13 → ((i ≠ 0 ∧ i &&& 3 = 0) ↔ (i = 4 ∨ i = 8 ∨ i = 12)) := by
    decide
  have hiff : ((p % 13 ≠ 0 ∧ p % 13 &&& 3 = 0) ∨ p = 146) ↔
      (p % 13 = 4 ∨ p % 13 = 8 ∨ p % 13 = 12 ∨ p = 146) := by
    have h := hfwd _ h13
    tauto
  have h : syt_corr p
      = if ((p % 13 ≠ 0 ∧ p % 13 &&& 3 = 0) ∨ p = 146) then 1 else 0 := rfl
  rw [h]
  exact if_congr hiff rfl rfl

set_option maxRecDepth 10000 in
set_option maxHeartbeats 2000000 in
lemma syt_base_check : ∀ r < 147, syt_ticks r % 3072 = syt_round_red r % 3072 := by
  decide

set_option maxRecDepth 10000 in
lemma syt_ticks_add_147 (n : Nat) : syt_ticks (n + 147) = syt_ticks n + 203776 := by
  induction n with
  | zero => decide
  | succ n ih =>
    have e1 : n + 1 + 147 = (n + 147) + 1 := by omega
    rw [e1, syt_ticks, ih, syt_ticks]
    have e2 : (67 + (n + 147)) % 147 = (67 + n) % 147 := by
      rw [show 67 + (n + 147) = (67 + n) + 147 from by omega, Nat.add_mod_right]
    rw [e2]
    omega

lemma syt_round_red_add_147 (n : Nat) :
    syt_round_red (n + 147) = syt_round_red n + 655360 := by
  unfold syt_round_red
  rw [show 2 * ((n + 147) * 655360) + 147
      = (2 * (n * 655360) + 147) + 655360 * 294 from by ring,
    Nat.add_mul_div_right _ _ (by norm_num : (0 : Nat) < 294)]

lemma syt_ticks_mod (n : Nat) : syt_ticks n % 3072 = syt_round_red n % 3072 := by
  have key : ∀ m, ∀ r, r < 147 →
      syt_ticks (147 * m + r) % 3072 = syt_round_red (147 * m + r) % 3072 := by
    intro m
    induction m with
    | zero =>
      intro r hr
      simpa using syt_base_check r hr
    | succ k ih =>
      intro r hr
      have e : 147 * (k + 1) + r = (147 * k + r) + 147 := by ring
      rw [e, syt_ticks_add_147, syt_round_red_add_147,
        Nat.add_mod (syt_ticks (147 * k + r)) 203776,
        Nat.add_mod (syt_round_red (147 * k + r)) 655360, ih r hr]
  have h := key (n / 147) (n % 147) (Nat.mod_lt _ (by norm_num))
  rw [Nat.div_add_mod] at h
  exact h

/-- The stream-state part of one calculate_syt call on a 44.1 kHz-base
stream. -/
lemma calculate_syt_snd (s : AmdtpStream) (c : Nat)
    (hb : cip_sfc_is_base_44100 s.sfc = true) :
    (calculate_syt s c).2 =
      if s.last_syt_offset < TICKS_PER_CYCLE then
        { s with
          syt_offset_state :=
            if s.syt_offset_state + 1 ≥ 147 then 0 else s.syt_offset_state + 1,
          last_syt_offset := s.last_syt_offset + 1386 + syt_corr s.syt_offset_state }
      else { s with last_syt_offset := s.last_syt_offset - TICKS_PER_CYCLE } := by
  unfold calculate_syt
  simp only [hb, not_true_eq_false, if_false]
  by_cases hl : s.last_syt_offset < TICKS_PER_CYCLE
  · rw [if_pos hl, if_pos hl]
  · rw [if_neg hl, if_neg hl]

lemma syt_cycle_last (t : AmdtpStream) (hb : cip_sfc_is_base_44100 t.sfc = true) :
    (syt_cycle_state t).last_syt_offset =
      if t.last_syt_offset < TICKS_PER_CYCLE then
        t.last_syt_offset + 1386 + syt_corr t.syt_offset_state
      else t.last_syt_offset - TICKS_PER_CYCLE := by
  unfold syt_cycle_state
  rw [calculate_syt_snd t 0 hb]
  by_cases h : t.last_syt_offset < TICKS_PER_CYCLE
  · rw [if_pos h, if_pos h]
  · rw [if_neg h, if_neg h]

lemma syt_cycle_phase (t : AmdtpStream) (hb : cip_sfc_is_base_44100 t.sfc = true) :
    (syt_cycle_state t).syt_offset_state =
      if t.last_syt_offset < TICKS_PER_CYCLE then
        (if t.syt_offset_state + 1 ≥ 147 then 0 else t.syt_offset_state + 1)
      else t.syt_offset_state := by
  unfold syt_cycle_state
  rw [calculate_syt_snd t 0 hb]
  by_cases h : t.last_syt_offset < TICKS_PER_CYCLE
  · rw [if_pos h, if_pos h]
  · rw [if_neg h, if_neg h]

lemma syt_cycle_sfc (t : AmdtpStream) (hb : cip_sfc_is_base_44100 t.sfc = true) :
    (syt_cycle_state t).sfc = t.sfc := by
  unfold syt_cycle_state
  rw [calculate_syt_snd t 0 hb]
  by_cases h : t.last_syt_offset < TICKS_PER_CYCLE
  · rw [if_pos h]
  · rw [if_neg h]

/-- Once amdtp_stream_start has set last_syt_offset = TICKS_PER_CYCLE and
syt_offset_state = 67, the n-th generated offset equals syt_ticks n mod
3072 and the generating phase walks through (67 + n) mod 147. -/
lemma syt_offsets_invariant (s : AmdtpStream) (hb : cip_sfc_is_base_44100 s.sfc = true)
    (hl : s.last_syt_offset = TICKS_PER_CYCLE) (hp : s.syt_offset_state = 67) :
    ∀ n, (syt_offsets s n).last_syt_offset = syt_ticks n % 3072 ∧
         (syt_offsets s n).syt_offset_state = (67 + n) % 147 ∧
         (syt_offsets s n).sfc = s.sfc := by
  have hT : TICKS_PER_CYCLE = 3072 := rfl
  intro n
  induction n with
  | zero =>
    have hC := syt_cycle_last s hb
    rw [if_neg (by omega)] at hC
    have hP := syt_cycle_phase s hb
    rw [if_neg (by omega)] at hP
    have hS := syt_cycle_sfc s hb
    rw [syt_offsets]
    unfold syt_emit_next
    rw [if_pos (by rw [hC]; omega)]
    refine ⟨?_, ?_, hS⟩
    · rw [hC, hl, hT]
      decide
    · rw [hP, hp]
  | succ n ih =>
    obtain ⟨ih1, ih2, ih3⟩ := ih
    have hbt : cip_sfc_is_base_44100 (syt_offsets s n).sfc = true := by
      rw [ih3]
      exact hb
    have hlt : (syt_offsets s n).last_syt_offset < TICKS_PER_CYCLE := by
      rw [ih1, hT]
      exact Nat.mod_lt _ (by norm_num)
    have hC := syt_cycle_last (syt_offsets s n) hbt
    rw [if_pos hlt] at hC
    have hP := syt_cycle_phase (syt_offsets s n) hbt
    rw [if_pos hlt] at hP
    have hS := syt_cycle_sfc (syt_offsets s n) hbt
    have e : syt_ticks (n + 1)
        = syt_ticks n + 1386 + syt_corr ((67 + n) % 147) := rfl
    have hc2 : syt_corr ((67 + n) % 147) ≤ 1 := syt_corr_le_one _
    rw [syt_offsets]
    unfold syt_emit_next
    by_cases hraw : (syt_offsets s n).last_syt_offset + 1386 +
        syt_corr ((syt_offsets s n).syt_offset_state) < TICKS_PER_CYCLE
    · rw [if_pos (by rw [hC]; exact hraw)]
      refine ⟨?_, ?_, hS.trans ih3⟩
      · have hraw2 : syt_ticks n % 3072 + 1386 + syt_corr ((67 + n) % 147) < 3072 := by
          rw [← ih1, ← ih2]
          omega
        rw [hC, ih1, ih2, e]
        omega
      · rw [hP, ih2]
        split <;> omega
    · rw [if_neg (by rw [hC]; exact hraw)]
      have hbt2 : cip_sfc_is_base_44100 (syt_cycle_state (syt_offsets s n)).sfc = true := by
        rw [hS]
        exact hbt
      have hnlt : ¬ (syt_cycle_state (syt_offsets s n)).last_syt_offset <
          TICKS_PER_CYCLE := by
        rw [hC]
        exact hraw
      have hC2 := syt_cycle_last (syt_cycle_state (syt_offsets s n)) hbt2
      rw [if_neg hnlt] at hC2
      have hP2 := syt_cycle_phase (syt_cycle_state (syt_offsets s n)) hbt2
      rw [if_neg hnlt] at hP2
      have hS2 := syt_cycle_sfc (syt_cycle_state (syt_offsets s n)) hbt2
      refine ⟨?_, ?_, hS2.trans (hS.trans ih3)⟩
      · have hraw2 : ¬ (syt_ticks n % 3072 + 1386 +
            syt_corr ((67 + n) % 147) < 3072) := by
          rw [← ih1, ← ih2]
          omega
        rw [hC2, hC, ih1, ih2, e, hT]
        omega
      · rw [hP2, hP, ih2]
        split <;> omega

def c3_phase3 : AmdtpStream :=
  { base_stream with last_syt_offset := 0, syt_offset_state := 3 }

def c3_phase4 : AmdtpStream :=
  { base_stream with last_syt_offset := 0, syt_offset_state := 4 }

/-- C3: for a 44.1 kHz-base stream in the state set up by amdtp_stream_start
(last_syt_offset = TICKS_PER_CYCLE, syt_offset_state = 67), the n-th generated
SYT offset taken modulo TICKS_PER_CYCLE equals round(n * syt_interval *
24576000 / rate) mod TICKS_PER_CYCLE for every n; and each generating cycle of
calculate_syt adds 1386 ticks plus a +1 correction exactly at phases congruent
to 4, 8 or 12 modulo 13 and additionally at phase 146 (not at phases 3, 7, 11,
... as the claim states). -/
theorem C3_syt_offsets (s : AmdtpStream)
    (hsfc : s.sfc = CIP_SFC_44100 ∨ s.sfc = CIP_SFC_88200 ∨ s.sfc = CIP_SFC_176400)
    (hl : s.last_syt_offset = TICKS_PER_CYCLE) (hp : s.syt_offset_state = 67) :
    (∀ n, (syt_offsets s n).last_syt_offset % TICKS_PER_CYCLE =
        syt_round (amdtp_syt_intervals.getD s.sfc 0)
          (amdtp_rate_table.getD s.sfc 0) n % TICKS_PER_CYCLE) ∧
    (∀ t : AmdtpStream, cip_sfc_is_base_44100 t.sfc = true →
        t.last_syt_offset < TICKS_PER_CYCLE →
        (syt_cycle_state t).last_syt_offset =
          t.last_syt_offset + 1386 +
            (if t.syt_offset_state % 13 = 4 ∨ t.syt_offset_state % 13 = 8 ∨
                t.syt_offset_state % 13 = 12 ∨ t.syt_offset_state = 146
             then 1 else 0)) := by
  have hT : TICKS_PER_CYCLE = 3072 := rfl
  have hb : cip_sfc_is_base_44100 s.sfc = true := by
    rcases hsfc with h | h | h <;> rw [h] <;> decide
  constructor
  · intro n
    have h1 := (syt_offsets_invariant s hb hl hp n).1
    have hred : syt_round (amdtp_syt_intervals.getD s.sfc 0)
        (amdtp_rate_table.getD s.sfc 0) n = syt_round_red n := by
      rcases hsfc with h | h | h <;> rw [h]
      · exact syt_round_44100 n
      · exact syt_round_88200 n
      · exact syt_round_176400 n
    rw [h1, hred, hT, Nat.mod_mod_of_dvd _ dvd_rfl, syt_ticks_mod]
  · intro t hbt hlt
    rw [syt_cycle_last t hbt, if_pos hlt, syt_corr_eq]

/-- C3 counterexample: starting from a generating state at phase 3 (a claimed
correction position) calculate_syt advances last_syt_offset by exactly 1386,
while from phase 4 it advances by 1387; the +1 corrections sit at phases 4, 8,
12 modulo 13, not at 3, 7, 11. -/
theorem C3_counterexample :
    (syt_cycle_state c3_phase3).last_syt_offset = 1386 ∧
    (syt_cycle_state c3_phase4).last_syt_offset = 1387 := by
  decide

theorem C3_witness :
    ((base_stream.sfc = CIP_SFC_44100 ∨ base_stream.sfc = CIP_SFC_88200 ∨
        base_stream.sfc = CIP_SFC_176400) ∧
      base_stream.last_syt_offset = TICKS_PER_CYCLE ∧
      base_stream.syt_offset_state = 67) ∧
    (syt_offsets base_stream 3).last_syt_offset % TICKS_PER_CYCLE =
      syt_round (amdtp_syt_intervals.getD base_stream.sfc 0)
        (amdtp_rate_table.getD base_stream.sfc 0) 3 % TICKS_PER_CYCLE ∧
    (cip_sfc_is_base_44100 c3_phase4.sfc = true ∧
      c3_phase4.last_syt_offset < TICKS_PER_CYCLE) ∧
    (syt_cycle_state c3_phase4).last_syt_offset =
      c3_phase4.last_syt_offset + 1386 +
        (if c3_phase4.syt_offset_state % 13 = 4 ∨ c3_phase4.syt_offset_state % 13 = 8 ∨
            c3_phase4.syt_offset_state % 13 = 12 ∨ c3_phase4.syt_offset_state = 146
         then 1 else 0) :=
  ⟨⟨Or.inl rfl, rfl, rfl⟩,
   (C3_syt_offsets base_stream (Or.inl rfl) rfl rfl).1 3,
   ⟨by decide, by decide⟩,
   (C3_syt_offsets base_stream (Or.inl rfl) rfl rfl).2 c3_phase4 (by decide) (by decide)⟩
